import Mathlib

/-!
Shallow embedding of the analytics pipeline of `quant_trading_app.py`.

Prices are modelled as exact rationals (`ℚ`); a pandas column aligned with
the price series is a function `ℕ → Option ℚ` on row indices, where `none`
models a NaN entry. The pipeline stages follow the source lines:

* `sma` — `data['Close'].rolling(window=w).mean()` (lines 53-54);
* `rsi` — the RSI column (line 62);
* `signal` — `np.where(data['SMA_short'] > data['SMA_long'], 1, -1)` (line 68);
* `marketReturn` — `data['Close'].pct_change()` (line 70);
* `strategyReturn` — `data['Signal'].shift(1) * data['Close'].pct_change()` (line 69);
* `keptIndices` / `returnRecords` — `data.dropna(inplace=True)` (line 71);
* `cumulativeMarket`, `cumulativeStrategy` — `(1 + returns).cumprod()` (lines 74-75);
* `totalRet`, `annualRet`, `sharpe` — the metrics (lines 84-86);
* `summaryMetrics` — the metrics block as a whole, where `none` models the
  `IndexError` raised by `.iloc[-1]` on an empty frame.
-/

/-- Rolling simple moving average, `closes.rolling(window=w).mean()`:
the arithmetic mean of the trailing `w` closes ending at row `t`, `none`
(NaN) for the first `w - 1` rows (insufficient history). -/
def sma (w : ℕ) (closes : List ℚ) (t : ℕ) : Option ℚ :=
  if w ≤ t + 1 ∧ t < closes.length then
    some ((((closes.take (t + 1)).drop (t + 1 - w)).sum) / (w : ℚ))
  else none

/-- Modelled from the spec: the RSI column comes from `RSIIndicator(...).rsi()`
of the external `ta` package, which is not part of this repository's source.
Per the spec (§4.1), RSI(window) at date `t` is the ratio of average gain to
average loss over the trailing `window` price changes, mapped to
`100 - 100/(1+RS)`, saturating at `100` when the average loss is zero, and
undefined for the first `window` dates. -/
def rsi (w : ℕ) (closes : List ℚ) (t : ℕ) : Option ℚ :=
  if w ≤ t ∧ t < closes.length ∧ 1 ≤ w then
    let ds := (List.range w).map
      (fun i => closes.getD (t - i) 0 - closes.getD (t - i - 1) 0)
    let avgGain := ((ds.map (fun d => max d 0)).sum) / (w : ℚ)
    let avgLoss := ((ds.map (fun d => max (-d) 0)).sum) / (w : ℚ)
    some (if avgLoss = 0 then 100 else 100 - 100 / (1 + avgGain / avgLoss))
  else none

/-- Float comparison `a > b` lifted to NaN-carrying cells: any comparison
involving NaN is false (IEEE semantics, as used by `np.where` on line 68). -/
def optGt : Option ℚ → Option ℚ → Bool
  | some a, some b => decide (b < a)
  | _, _ => false

/-- The Signal column, `np.where(data['SMA_short'] > data['SMA_long'], 1, -1)`
(line 68). `np.where` is total: every row gets `1` or `-1`, and a NaN moving
average compares false, landing in the `-1` branch. -/
def signal (s l : ℕ) (closes : List ℚ) (t : ℕ) : ℤ :=
  if optGt (sma s closes t) (sma l closes t) then 1 else -1

/-- The Market_Returns column, `data['Close'].pct_change()` (line 70):
`close[t]/close[t-1] - 1`, NaN on the first row. -/
def marketReturn (closes : List ℚ) (t : ℕ) : Option ℚ :=
  if 1 ≤ t ∧ t < closes.length then
    some (closes.getD t 0 / closes.getD (t - 1) 0 - 1)
  else none

/-- The Strategy_Returns column,
`data['Signal'].shift(1) * data['Close'].pct_change()` (line 69). The
shifted signal is NaN only on row 0, where `pct_change` is NaN as well, so
the cell is defined exactly where the market return is. -/
def strategyReturn (s l : ℕ) (closes : List ℚ) (t : ℕ) : Option ℚ :=
  (marketReturn closes t).map (fun r => ((signal s l closes (t - 1) : ℤ) : ℚ) * r)

/-- Row `t` survives `data.dropna(inplace=True)` (line 71): every column of
the frame is non-NaN there. The Close column (and the other raw columns)
were already NaN-free after line 18, and the Signal column is total, so the
condition is that both SMAs, the RSI and the two return cells are defined. -/
def rowKept (s l r : ℕ) (closes : List ℚ) (t : ℕ) : Bool :=
  (sma s closes t).isSome && (sma l closes t).isSome && (rsi r closes t).isSome
    && (strategyReturn s l closes t).isSome && (marketReturn closes t).isSome

/-- The row indices remaining after `dropna` (line 71), in order. -/
def keptIndices (s l r : ℕ) (closes : List ℚ) : List ℕ :=
  (List.range closes.length).filter (fun t => rowKept s l r closes t)

/-- The Strategy_Returns column of the filtered frame. -/
def stratRets (s l r : ℕ) (closes : List ℚ) : List ℚ :=
  (keptIndices s l r closes).map (fun t => (strategyReturn s l closes t).getD 0)

/-- The Market_Returns column of the filtered frame. -/
def mktRets (s l r : ℕ) (closes : List ℚ) : List ℚ :=
  (keptIndices s l r closes).map (fun t => (marketReturn closes t).getD 0)

/-- The output rows after `dropna`: for each surviving date, its index and
its `(Strategy_Returns, Market_Returns)` pair — the ReturnRecord sequence. -/
def returnRecords (s l r : ℕ) (closes : List ℚ) : List (ℕ × ℚ × ℚ) :=
  (keptIndices s l r closes).map
    (fun t => (t, (strategyReturn s l closes t).getD 0, (marketReturn closes t).getD 0))

/-- `Series.cumprod()`: entry `k` is the product of the first `k + 1` inputs. -/
def cumprodList : List ℚ → List ℚ
  | [] => []
  | x :: xs => x :: (cumprodList xs).map (fun y => x * y)

/-- The Cumulative_Market column, `(1 + data['Market_Returns']).cumprod()`
(line 74), taken over the filtered frame. -/
def cumulativeMarket (s l r : ℕ) (closes : List ℚ) : List ℚ :=
  cumprodList ((mktRets s l r closes).map (fun x => 1 + x))

/-- The Cumulative_Strategy column, `(1 + data['Strategy_Returns']).cumprod()`
(line 75), taken over the filtered frame. -/
def cumulativeStrategy (s l r : ℕ) (closes : List ℚ) : List ℚ :=
  cumprodList ((stratRets s l r closes).map (fun x => 1 + x))

/-- `series.iloc[-1]`: the last element; `none` models the `IndexError`
raised on an empty series. -/
def ilocLast (xs : List ℚ) : Option ℚ := xs.getLast?

/-- `total_ret = perf_df['Strategy'].iloc[-1] - 1` (line 84); `none` models
the `IndexError` fault when the filtered frame is empty. -/
def totalRet (s l r : ℕ) (closes : List ℚ) : Option ℚ :=
  (ilocLast (cumulativeStrategy s l r closes)).map (fun x => x - 1)

/-- `series.mean()`: the arithmetic mean. -/
def qmean (xs : List ℚ) : ℚ := xs.sum / (xs.length : ℚ)

/-- `series.var()` with pandas' default `ddof=1`: the sample variance
`Σ (x - mean)² / (n - 1)`. -/
def svar (xs : List ℚ) : ℚ :=
  ((xs.map (fun x => (x - qmean xs) ^ 2)).sum) / ((xs.length : ℚ) - 1)

/-- `annual_ret = data['Strategy_Returns'].mean() * 252` (line 85). -/
def annualRet (xs : List ℚ) : ℚ := qmean xs * 252

/-- The value of a float expression: a real number, an infinity, or NaN. -/
inductive FloatVal where
  | nan : FloatVal
  | posInf : FloatVal
  | negInf : FloatVal
  | val : ℝ → FloatVal

/-- `sharpe = (mean / std) * np.sqrt(252)` (line 86), with pandas'
`std()` (sample standard deviation, `ddof=1`) and IEEE float semantics at
the division: on an empty series the mean is NaN, on a single element the
sample standard deviation is NaN (zero degrees of freedom), so the quotient
is NaN; when the sample variance is exactly zero the standard deviation is
`0.0` and the quotient is `+∞`, `-∞` or NaN according to the sign of the
mean; otherwise the quotient is the real value `mean / sqrt(variance)`. -/
noncomputable def sharpe (xs : List ℚ) : FloatVal :=
  if xs.length ≤ 1 then FloatVal.nan
  else if svar xs = 0 then
    if 0 < qmean xs then FloatVal.posInf
    else if qmean xs < 0 then FloatVal.negInf
    else FloatVal.nan
  else FloatVal.val (((qmean xs : ℝ) / Real.sqrt (svar xs : ℝ)) * Real.sqrt 252)

/-- The performance-metrics block (lines 84-86): `total_ret` is computed
first, and `.iloc[-1]` on an empty filtered frame raises `IndexError`
before the other two metrics are reached — modelled by `none`. Otherwise
all three metrics are produced. -/
noncomputable def summaryMetrics (s l r : ℕ) (closes : List ℚ) :
    Option (ℚ × ℚ × FloatVal) :=
  match ilocLast (cumulativeStrategy s l r closes) with
  | none => none
  | some last =>
      some (last - 1, annualRet (stratRets s l r closes),
        sharpe (stratRets s l r closes))

/-- Modelled from the spec: the window parameters come from the interactive
sliders (lines 51, 52, 61), which belong to the out-of-scope presentation
layer. A slider returns the user's selection clamped to `[minv, maxv]`, or
the (in-range) default when the user has made no selection. -/
def sliderVal (minv maxv default : ℕ) (choice : Option ℕ) : ℕ :=
  match choice with
  | none => default
  | some c => max minv (min maxv c)

/-! ### Basic facts about the embedded columns -/

theorem sma_isSome {w : ℕ} {c : List ℚ} {t : ℕ} :
    (sma w c t).isSome = true ↔ w ≤ t + 1 ∧ t < c.length := by
  unfold sma
  split <;> simp_all

theorem rsi_isSome {w : ℕ} {c : List ℚ} {t : ℕ} :
    (rsi w c t).isSome = true ↔ w ≤ t ∧ t < c.length ∧ 1 ≤ w := by
  unfold rsi
  split <;> simp_all

theorem marketReturn_isSome {c : List ℚ} {t : ℕ} :
    (marketReturn c t).isSome = true ↔ 1 ≤ t ∧ t < c.length := by
  unfold marketReturn
  split <;> simp_all

theorem marketReturn_eq {c : List ℚ} {t : ℕ} (h1 : 1 ≤ t) (h2 : t < c.length) :
    marketReturn c t = some (c.getD t 0 / c.getD (t - 1) 0 - 1) := by
  unfold marketReturn
  rw [if_pos ⟨h1, h2⟩]

theorem strategyReturn_eq {s l : ℕ} {c : List ℚ} {t : ℕ}
    (h1 : 1 ≤ t) (h2 : t < c.length) :
    strategyReturn s l c t =
      some (((signal s l c (t - 1) : ℤ) : ℚ) * (c.getD t 0 / c.getD (t - 1) 0 - 1)) := by
  unfold strategyReturn
  rw [marketReturn_eq h1 h2]
  rfl

theorem strategyReturn_isSome {s l : ℕ} {c : List ℚ} {t : ℕ} :
    (strategyReturn s l c t).isSome = true ↔ 1 ≤ t ∧ t < c.length := by
  have h : (strategyReturn s l c t).isSome = (marketReturn c t).isSome := by
    unfold strategyReturn
    cases marketReturn c t <;> rfl
  rw [h]
  exact marketReturn_isSome

theorem signal_cases (s l : ℕ) (c : List ℚ) (t : ℕ) :
    signal s l c t = 1 ∨ signal s l c t = -1 := by
  unfold signal
  split
  · exact Or.inl rfl
  · exact Or.inr rfl

theorem mem_keptIndices {s l r : ℕ} {c : List ℚ} {t : ℕ} :
    t ∈ keptIndices s l r c ↔
      t < c.length ∧ s - 1 ≤ t ∧ l - 1 ≤ t ∧ r ≤ t ∧ 1 ≤ r ∧ 1 ≤ t := by
  unfold keptIndices rowKept
  simp only [List.mem_filter, List.mem_range, Bool.and_eq_true,
    sma_isSome, rsi_isSome, strategyReturn_isSome, marketReturn_isSome]
  omega

theorem cumprodList_length (xs : List ℚ) :
    (cumprodList xs).length = xs.length := by
  induction xs with
  | nil => rfl
  | cons x xs ih => simp [cumprodList, ih]

theorem cumprodList_getElem (xs : List ℚ) (k : ℕ) (hk : k < xs.length) :
    (cumprodList xs)[k]? = some ((xs.take (k + 1)).prod) := by
  induction xs generalizing k with
  | nil => simp at hk
  | cons x xs ih =>
    cases k with
    | zero => simp [cumprodList]
    | succ k =>
      have hk' : k < xs.length := by simpa using hk
      simp [cumprodList, List.getElem?_map, ih k hk', List.prod_cons]

theorem cumprodList_getLast (xs : List ℚ) (h : xs ≠ []) :
    (cumprodList xs).getLast? = some xs.prod := by
  have hlen : 1 ≤ xs.length := List.length_pos.mpr h
  have h1 : (cumprodList xs).getLast? = (cumprodList xs)[xs.length - 1]? := by
    rw [List.getLast?_eq_getElem?, cumprodList_length]
  rw [h1, cumprodList_getElem xs (xs.length - 1) (by omega)]
  congr 1
  rw [Nat.sub_add_cancel hlen, List.take_length]

theorem qmean_replicate (n : ℕ) (x : ℚ) (h : 1 ≤ n) :
    qmean (List.replicate n x) = x := by
  unfold qmean
  rw [List.sum_replicate, List.length_replicate, nsmul_eq_mul]
  field_simp

theorem svar_replicate (n : ℕ) (x : ℚ) (h : 1 ≤ n) :
    svar (List.replicate n x) = 0 := by
  unfold svar
  rw [qmean_replicate n x h, List.map_replicate]
  simp

/-! ### Claim theorems -/

/-- C1: for every date `t` with a defined market return, the market return
is `close[t]/close[t-1] - 1` and the strategy return is the previous day's
signal times that market return — the signal enters only at `t - 1`, never
at `t`. -/
theorem strategy_return_uses_lagged_signal (s l : ℕ) (c : List ℚ) (t : ℕ)
    (h1 : 1 ≤ t) (h2 : t < c.length) :
    marketReturn c t = some (c.getD t 0 / c.getD (t - 1) 0 - 1) ∧
    strategyReturn s l c t =
      some (((signal s l c (t - 1) : ℤ) : ℚ) * (c.getD t 0 / c.getD (t - 1) 0 - 1)) :=
  ⟨marketReturn_eq h1 h2, strategyReturn_eq h1 h2⟩

/-- Witness for C1 at `closes = [100, 102]`, `t = 1`. -/
theorem strategy_return_uses_lagged_signal_witness :
    (1 ≤ 1 ∧ 1 < [(100 : ℚ), 102].length) ∧
    (marketReturn [(100 : ℚ), 102] 1 =
        some ([(100 : ℚ), 102].getD 1 0 / [(100 : ℚ), 102].getD 0 0 - 1) ∧
      strategyReturn 1 2 [(100 : ℚ), 102] 1 =
        some (((signal 1 2 [(100 : ℚ), 102] 0 : ℤ) : ℚ) *
          ([(100 : ℚ), 102].getD 1 0 / [(100 : ℚ), 102].getD 0 0 - 1))) :=
  ⟨⟨by decide, by decide⟩,
    strategy_return_uses_lagged_signal 1 2 [100, 102] 1 (by decide) (by decide)⟩

/-- C2 counterexample: at `closes = [100, 102, 101]` with windows `(2, 3)`,
both moving averages are undefined on the first date, yet the signal there
is `-1` — a value in `{+1, -1}`, not a missing entry. The NaN comparison in
`np.where(SMA_short > SMA_long, 1, -1)` is false, so the warm-up rows land
in the `-1` branch instead of propagating the missing value. -/
theorem signal_warmup_counterexample :
    sma 2 [(100 : ℚ), 102, 101] 0 = none ∧ sma 3 [(100 : ℚ), 102, 101] 0 = none ∧
    signal 2 3 [(100 : ℚ), 102, 101] 0 = -1 := by
  exact ⟨by decide, by decide, by decide⟩

/-- C2 amended: wherever either moving average is undefined, the signal is
`-1` (never missing): the NaN comparison is false and `np.where` takes the
else branch. -/
theorem signal_neg_one_when_sma_undefined (s l : ℕ) (c : List ℚ) (t : ℕ)
    (h : sma s c t = none ∨ sma l c t = none) :
    signal s l c t = -1 := by
  have hgt : optGt (sma s c t) (sma l c t) = false := by
    rcases h with h | h <;> rw [h]
    · cases sma l c t <;> rfl
    · cases sma s c t <;> rfl
  simp [signal, hgt]

/-- Witness for the C2 amended theorem at `closes = [100, 102]`, `t = 0`,
long window `3`. -/
theorem signal_neg_one_when_sma_undefined_witness :
    (sma 2 [(100 : ℚ), 102] 0 = none ∨ sma 3 [(100 : ℚ), 102] 0 = none) ∧
    signal 2 3 [(100 : ℚ), 102] 0 = -1 :=
  ⟨Or.inl (by decide),
    signal_neg_one_when_sma_undefined 2 3 [100, 102] 0 (Or.inl (by decide))⟩

/-- C9: where both moving averages are defined, the signal is `+1` exactly
when `sma_short > sma_long` and `-1` otherwise; a tie yields `-1`; and the
signal never takes any value other than `+1` or `-1`. -/
theorem signal_crossover_rule (s l : ℕ) (c : List ℚ) (t : ℕ) (a b : ℚ)
    (hs : sma s c t = some a) (hl : sma l c t = some b) :
    signal s l c t = (if b < a then 1 else -1) ∧
    (a = b → signal s l c t = -1) ∧
    (signal s l c t = 1 ∨ signal s l c t = -1) := by
  have h1 : signal s l c t = if b < a then 1 else -1 := by
    unfold signal
    rw [hs, hl]
    show (if decide (b < a) = true then (1 : ℤ) else -1) = _
    by_cases hab : b < a <;> simp [hab]
  refine ⟨h1, ?_, signal_cases s l c t⟩
  intro hab
  rw [h1, if_neg (by rw [hab]; exact lt_irrefl b)]

/-- Witness for C9 at `closes = [100, 102, 101]`, windows `(1, 2)`, `t = 1`,
where `sma_short = 102 > 101.5 = sma_long`. -/
theorem signal_crossover_rule_witness :
    (sma 1 [(100 : ℚ), 102, 101] 1 = some 102 ∧
      sma 2 [(100 : ℚ), 102, 101] 1 = some 101) ∧
    (signal 1 2 [(100 : ℚ), 102, 101] 1 = (if (101 : ℚ) < 102 then 1 else -1) ∧
      ((102 : ℚ) = 101 → signal 1 2 [(100 : ℚ), 102, 101] 1 = -1) ∧
      (signal 1 2 [(100 : ℚ), 102, 101] 1 = 1 ∨
        signal 1 2 [(100 : ℚ), 102, 101] 1 = -1)) :=
  ⟨⟨by norm_num [sma], by norm_num [sma]⟩,
    signal_crossover_rule 1 2 [100, 102, 101] 1 102 101
      (by norm_num [sma]) (by norm_num [sma])⟩

/-- C10: every output row's strategy return is the market return or its
negation — the position is always fully invested, `|strategy| = |market|`,
because the signal column only ever holds `+1` or `-1`. -/
theorem strategy_abs_equals_market_abs (s l r : ℕ) (c : List ℚ)
    (p : ℕ × ℚ × ℚ) (hp : p ∈ returnRecords s l r c) : |p.2.1| = |p.2.2| := by
  unfold returnRecords at hp
  rcases List.mem_map.mp hp with ⟨t, ht, rfl⟩
  have hmem := mem_keptIndices.mp ht
  have h1 : 1 ≤ t := hmem.2.2.2.2.2
  have h2 : t < c.length := hmem.1
  rw [strategyReturn_eq h1 h2, marketReturn_eq h1 h2]
  simp only [Option.getD_some]
  rw [abs_mul]
  rcases signal_cases s l c (t - 1) with h | h <;> rw [h] <;> simp

set_option maxHeartbeats 1000000 in
/-- Witness for C10 at `closes = [100, 102]`, windows `(1, 1, 1)`, on the
single output row `(1, -(1/50), 1/50)`: the lagged signal is `-1` (tie on
day 0), so the strategy return is the negated market return. -/
theorem strategy_abs_equals_market_abs_witness :
    ((1, -((1 : ℚ)/50), (1 : ℚ)/50) ∈ returnRecords 1 1 1 [(100 : ℚ), 102]) ∧
    |((1, -((1 : ℚ)/50), (1 : ℚ)/50) : ℕ × ℚ × ℚ).2.1| =
      |((1, -((1 : ℚ)/50), (1 : ℚ)/50) : ℕ × ℚ × ℚ).2.2| := by
  have hmem : ((1, -((1 : ℚ)/50), (1 : ℚ)/50) ∈
      returnRecords 1 1 1 [(100 : ℚ), 102]) := by
    have h : returnRecords 1 1 1 [(100 : ℚ), 102] = [(1, -(1/50), 1/50)] := by
      norm_num [returnRecords, keptIndices, rowKept, sma, rsi, strategyReturn,
        marketReturn, signal, optGt, List.range_succ]
    rw [h]
    simp
  exact ⟨hmem,
    strategy_abs_equals_market_abs 1 1 1 [100, 102] (1, -(1/50), 1/50) hmem⟩

/-- C3 counterexample: with `short_window = 2`, `long_window = 5`,
`rsi_window = 2` on a 6-date series, the output rows are `[4, 5]`: the
first usable return is 4 periods after the start, below the claimed lower
bound `max(long_window, rsi_window) + 1 = 6`; moreover row 4 is retained
although `sma_long` (hence the spec-level prior-day signal) is still
undefined on day 3 — the code's signal column is never missing, so the
warm-up `-1` enters the first retained row. -/
theorem first_usable_row_counterexample :
    keptIndices 2 5 2 [(100 : ℚ), 102, 101, 105, 110, 108] = [4, 5] ∧
    sma 5 [(100 : ℚ), 102, 101, 105, 110, 108] 3 = none ∧
    4 < max 5 2 + 1 :=
  ⟨by decide, by decide, by decide⟩

/-- C3 amended: a row survives the `dropna` exactly when both moving
averages, the RSI and the market return are defined there, i.e. when
`t ≥ max(short_window - 1, long_window - 1, rsi_window, 1)` (and the RSI
window is positive); the prior-day signal imposes no constraint beyond
`t ≥ 1` because the signal column is total. -/
theorem kept_rows_characterization (s l r : ℕ) (c : List ℚ) (t : ℕ) :
    t ∈ keptIndices s l r c ↔
      t < c.length ∧ s - 1 ≤ t ∧ l - 1 ≤ t ∧ r ≤ t ∧ 1 ≤ r ∧ 1 ≤ t :=
  mem_keptIndices

/-- C4 counterexample: on the 3-date series `[100, 102, 101]` with windows
`(2, 3, 3)` every row is dropped as warm-up, and the metrics block faults
(`.iloc[-1]` on the empty cumulative series raises `IndexError`, modelled
by `none`) instead of completing with three "not computable" metrics. -/
theorem empty_returns_fault_counterexample :
    keptIndices 2 3 3 [(100 : ℚ), 102, 101] = [] ∧
    summaryMetrics 2 3 3 [(100 : ℚ), 102, 101] = none := by
  refine ⟨by decide, ?_⟩
  have h : ilocLast (cumulativeStrategy 2 3 3 [(100 : ℚ), 102, 101]) = none := by
    decide
  unfold summaryMetrics
  rw [h]

/-- C4 amended: whenever the filtered frame is empty, the metrics block
does not complete — computing `total_ret` applies `.iloc[-1]` to an empty
series, which faults before any metric is produced. -/
theorem empty_records_metrics_fault (s l r : ℕ) (c : List ℚ)
    (h : stratRets s l r c = []) : summaryMetrics s l r c = none := by
  have h2 : ilocLast (cumulativeStrategy s l r c) = none := by
    unfold ilocLast cumulativeStrategy
    rw [h]
    rfl
  unfold summaryMetrics
  rw [h2]

/-- Witness for the C4 amended theorem: a 2-date series whose rows are all
warm-up for windows `(2, 3, 3)`. -/
theorem empty_records_metrics_fault_witness :
    stratRets 2 3 3 [(100 : ℚ), 101] = [] ∧
    summaryMetrics 2 3 3 [(100 : ℚ), 101] = none :=
  ⟨by decide, empty_records_metrics_fault 2 3 3 [100, 101] (by decide)⟩

/-- C5 counterexample: the constant return sequence `[1/4, 1/4]` has sample
standard deviation zero and positive mean, and the Sharpe ratio evaluates
to `+∞` (`mean / 0.0` in IEEE arithmetic) — it is silently coerced to
infinity, not surfaced as NaN/None. -/
theorem sharpe_constant_returns_counterexample :
    svar [(1 : ℚ)/4, 1/4] = 0 ∧
    sharpe [(1 : ℚ)/4, 1/4] = FloatVal.posInf := by
  have hv : svar [(1 : ℚ)/4, 1/4] = 0 := by norm_num [svar, qmean]
  have hm : qmean [(1 : ℚ)/4, 1/4] = 1/4 := by norm_num [qmean]
  refine ⟨hv, ?_⟩
  unfold sharpe
  rw [if_neg (by norm_num), if_pos hv, if_pos (by rw [hm]; norm_num)]

/-- C5 amended: for a constant return sequence of length at least 2, the
Sharpe computation never faults, but it is NaN only when the mean is zero;
a nonzero mean is coerced to `+∞` or `-∞` by the IEEE division by the zero
standard deviation. -/
theorem sharpe_zero_variance_classification (x : ℚ) (n : ℕ) (h : 2 ≤ n) :
    sharpe (List.replicate n x) =
      (if 0 < x then FloatVal.posInf
        else if x < 0 then FloatVal.negInf else FloatVal.nan) := by
  have h1 : 1 ≤ n := by omega
  have hm := qmean_replicate n x h1
  have hv := svar_replicate n x h1
  unfold sharpe
  rw [List.length_replicate, if_neg (by omega), if_pos hv, hm]

/-- Witness for the C5 amended theorem on three copies of `-1/2`: the
Sharpe ratio is `-∞`. -/
theorem sharpe_zero_variance_classification_witness :
    2 ≤ 3 ∧
    sharpe (List.replicate 3 (-(1 : ℚ)/2)) =
      (if 0 < (-(1 : ℚ)/2) then FloatVal.posInf
        else if (-(1 : ℚ)/2) < 0 then FloatVal.negInf else FloatVal.nan) :=
  ⟨by norm_num, sharpe_zero_variance_classification (-(1 : ℚ)/2) 3 (by norm_num)⟩

/-- C6 counterexample: non-positive windows are not the only aborting
condition — with the slider default windows `(10, 50, 14)`, all positive,
a short price series still makes the metrics block fault (`.iloc[-1]` on
the empty filtered frame), an abort that is not a parameter-validation
error. -/
theorem abort_with_positive_windows_counterexample :
    0 < 10 ∧ 0 < 50 ∧ 0 < 14 ∧
    summaryMetrics 10 50 14 [(100 : ℚ), 101] = none := by
  refine ⟨by norm_num, by norm_num, by norm_num, ?_⟩
  have h : ilocLast (cumulativeStrategy 10 50 14 [(100 : ℚ), 101]) = none := by
    decide
  unfold summaryMetrics
  rw [h]

theorem sliderVal_pos (minv maxv default : ℕ) (choice : Option ℕ)
    (h1 : 0 < minv) (h2 : 0 < default) : 0 < sliderVal minv maxv default choice := by
  cases choice with
  | none => exact h2
  | some c => exact lt_of_lt_of_le h1 (le_max_left _ _)

/-- C6 amended: the pipeline performs no window validation of its own;
the window sizes it consumes come from the UI sliders with positive
minima `(5, 20, 5)` and positive defaults, so every window reaching the
computation is positive, whatever the user selects — there is no
non-positive-window input to fail fast on. -/
theorem slider_windows_always_positive (c1 c2 c3 : Option ℕ) :
    0 < sliderVal 5 50 10 c1 ∧ 0 < sliderVal 20 200 50 c2 ∧
    0 < sliderVal 5 30 14 c3 :=
  ⟨sliderVal_pos 5 50 10 c1 (by norm_num) (by norm_num),
    sliderVal_pos 20 200 50 c2 (by norm_num) (by norm_num),
    sliderVal_pos 5 30 14 c3 (by norm_num) (by norm_num)⟩

theorem stratRets_length (s l r : ℕ) (c : List ℚ) :
    (stratRets s l r c).length = (keptIndices s l r c).length := by
  unfold stratRets
  rw [List.length_map]

theorem mktRets_length (s l r : ℕ) (c : List ℚ) :
    (mktRets s l r c).length = (keptIndices s l r c).length := by
  unfold mktRets
  rw [List.length_map]

/-- C7: both cumulative curves are running products of `1 + return`
(their `k`-th entry is the product over the first `k + 1` records), and the
total return is the final cumulative strategy value minus 1, i.e.
`Π (1 + r_i) - 1` over all strategy returns. -/
theorem cumulative_curves_are_running_products (s l r : ℕ) (c : List ℚ)
    (k : ℕ) (hk : k < (stratRets s l r c).length)
    (hne : stratRets s l r c ≠ []) :
    (cumulativeStrategy s l r c)[k]? =
      some ((((stratRets s l r c).take (k + 1)).map (fun x => 1 + x)).prod) ∧
    (cumulativeMarket s l r c)[k]? =
      some ((((mktRets s l r c).take (k + 1)).map (fun x => 1 + x)).prod) ∧
    totalRet s l r c =
      some (((stratRets s l r c).map (fun x => 1 + x)).prod - 1) := by
  have hk2 : k < (mktRets s l r c).length := by
    rw [mktRets_length]
    rw [stratRets_length] at hk
    exact hk
  refine ⟨?_, ?_, ?_⟩
  · unfold cumulativeStrategy
    rw [cumprodList_getElem _ k (by rw [List.length_map]; exact hk),
      ← List.map_take]
  · unfold cumulativeMarket
    rw [cumprodList_getElem _ k (by rw [List.length_map]; exact hk2),
      ← List.map_take]
  · unfold totalRet ilocLast cumulativeStrategy
    rw [cumprodList_getLast _ (by simpa using hne)]
    rfl

set_option maxHeartbeats 1000000 in
/-- Witness for C7 at `closes = [100, 102]`, windows `(1, 1, 1)`, `k = 0`:
a single output record with strategy return `-1/50` and market return
`1/50`. -/
theorem cumulative_curves_are_running_products_witness :
    (0 < (stratRets 1 1 1 [(100 : ℚ), 102]).length ∧
      stratRets 1 1 1 [(100 : ℚ), 102] ≠ []) ∧
    ((cumulativeStrategy 1 1 1 [(100 : ℚ), 102])[0]? =
      some ((((stratRets 1 1 1 [(100 : ℚ), 102]).take 1).map
        (fun x => 1 + x)).prod) ∧
    (cumulativeMarket 1 1 1 [(100 : ℚ), 102])[0]? =
      some ((((mktRets 1 1 1 [(100 : ℚ), 102]).take 1).map
        (fun x => 1 + x)).prod) ∧
    totalRet 1 1 1 [(100 : ℚ), 102] =
      some (((stratRets 1 1 1 [(100 : ℚ), 102]).map (fun x => 1 + x)).prod - 1)) :=
  ⟨⟨by decide, by decide⟩,
    cumulative_curves_are_running_products 1 1 1 [100, 102] 0
      (by decide) (by decide)⟩

/-- C8: the annualized return is the plain mean of the strategy returns
scaled linearly by 252, and (when at least two returns are present and
they are not all equal) the Sharpe ratio is the mean divided by the
`ddof = 1` sample standard deviation, scaled by `sqrt 252`, with no
risk-free-rate term. -/
theorem annualized_and_sharpe_formulas (xs : List ℚ)
    (h1 : 2 ≤ xs.length)
    (h2 : (xs.map (fun x => (x - xs.sum / (xs.length : ℚ)) ^ 2)).sum ≠ 0) :
    annualRet xs = xs.sum / (xs.length : ℚ) * 252 ∧
    sharpe xs = FloatVal.val
      (((xs.sum / (xs.length : ℚ) : ℚ) : ℝ) /
        Real.sqrt (((xs.map (fun x => (x - xs.sum / (xs.length : ℚ)) ^ 2)).sum
            / ((xs.length : ℚ) - 1) : ℚ) : ℝ) * Real.sqrt 252) := by
  have hv : svar xs ≠ 0 := by
    unfold svar qmean
    apply div_ne_zero h2
    have hc : (2 : ℚ) ≤ (xs.length : ℚ) := by exact_mod_cast h1
    linarith
  refine ⟨rfl, ?_⟩
  unfold sharpe
  rw [if_neg (by omega), if_neg hv]
  rfl

/-- Witness for C8 on the returns `[1/10, 2/10]`. -/
theorem annualized_and_sharpe_formulas_witness :
    (2 ≤ [(1 : ℚ)/10, 2/10].length ∧
      ([(1 : ℚ)/10, 2/10].map (fun x =>
        (x - [(1 : ℚ)/10, 2/10].sum / (([(1 : ℚ)/10, 2/10].length : ℕ) : ℚ)) ^ 2)).sum ≠ 0) ∧
    (annualRet [(1 : ℚ)/10, 2/10] =
        [(1 : ℚ)/10, 2/10].sum / (([(1 : ℚ)/10, 2/10].length : ℕ) : ℚ) * 252 ∧
      sharpe [(1 : ℚ)/10, 2/10] = FloatVal.val
        ((([(1 : ℚ)/10, 2/10].sum / (([(1 : ℚ)/10, 2/10].length : ℕ) : ℚ) : ℚ) : ℝ) /
          Real.sqrt ((([(1 : ℚ)/10, 2/10].map (fun x =>
              (x - [(1 : ℚ)/10, 2/10].sum / (([(1 : ℚ)/10, 2/10].length : ℕ) : ℚ)) ^ 2)).sum
              / ((([(1 : ℚ)/10, 2/10].length : ℕ) : ℚ) - 1) : ℚ) : ℝ) * Real.sqrt 252)) :=
  ⟨⟨by norm_num, by norm_num⟩,
    annualized_and_sharpe_formulas [(1 : ℚ)/10, 2/10] (by norm_num) (by norm_num)⟩
